import Mathlib

/-!
Shallow embedding of the template-matching engine of this repository:
src/src-tauri/src/services/template_matcher.rs and
src/src-tauri/src/commands/template_match.rs.

Modelling conventions:
* Machine floats (f32 / f64) that carry finite numeric values are modelled as
  exact rationals; the one place where non-finite floats matter (the maximum of
  the correlation surface, guarded by is_finite in the source) is modelled by
  the inductive FVal with explicit nan / infinity constructors.
* Calls into external crates (base64, image, imageproc) are modelled as fields
  of an Externals record that every repository function takes as a parameter:
  b64decode for BASE64_STANDARD.decode, load_from_memory for
  image::load_from_memory (viewed through to_rgba8, which is how every caller
  in this file consumes the decoded image), to_luma8 for
  DynamicImage::to_luma8, resample for the Lanczos3 pixel computation of
  resize_exact (resize_exact itself fixes the output dimensions, which the
  model keeps), and match_extremes for match_template followed by
  find_extremes.
* Rust u32 → i32 casts on match coordinates are modelled as exact Int
  coercions: correlation-surface locations are bounded by the screenshot
  dimensions, far below 2^31 for any decodable screenshot.
* f64 → u32 and f32 → u8 casts are the saturating casts of Rust `as`.
-/

namespace TemplateMatcher

/-- One RGBA pixel; each channel is a byte (0..255). -/
structure Rgba where
  r : Nat
  g : Nat
  b : Nat
  a : Nat
deriving DecidableEq

/-- Decoded RGBA raster, the to_rgba8 view of an image::DynamicImage. -/
structure RgbaImage where
  width : Nat
  height : Nat
  pix : Nat → Nat → Rgba

/-- Single-channel luminance raster, image::GrayImage. -/
structure GrayImage where
  width : Nat
  height : Nat
  pix : Nat → Nat → Nat

/-- An f32 value as classified by f32::is_finite: either an exact finite
value, or one of the non-finite values NaN / +inf / -inf. -/
inductive FVal where
  | finite (q : ℚ)
  | nan
  | posInf
  | negInf
deriving DecidableEq

/-- f32::is_finite. -/
def FVal.isFinite : FVal → Bool
  | .finite _ => true
  | _ => false

/-- IEEE comparison `c >= t` for an f32 value c against a finite threshold t
(NaN compares false, +inf compares true). -/
def FVal.geThreshold : FVal → ℚ → Bool
  | .finite q, t => decide (t ≤ q)
  | .nan, _ => false
  | .posInf, _ => true
  | .negInf, _ => false

/-- Rust f32::round / f64::round: round half away from zero. -/
def roundAway (q : ℚ) : ℤ :=
  if 0 ≤ q then ⌊q + 1 / 2⌋ else -⌊-q + 1 / 2⌋

/-- Saturating float → u32 cast (Rust `as u32`). -/
def satU32 (z : ℤ) : Nat :=
  (max 0 (min z (2 ^ 32 - 1))).toNat

/-- Saturating float → u8 cast (Rust `as u8`). -/
def satU8 (z : ℤ) : Nat :=
  (max 0 (min z 255)).toNat

/-- The part of imageproc::template_matching::Extremes that the source
consumes: the maximum value of the correlation surface and its location. -/
structure Extremes where
  max_value : FVal
  max_value_location : Nat × Nat

/-- The external-crate operations the engine calls, supplied as an
environment so that repository code stays a pure function of its inputs. -/
structure Externals where
  b64decode : String → Except String (List Nat)
  load_from_memory : List Nat → Except String RgbaImage
  to_luma8 : RgbaImage → GrayImage
  resample : RgbaImage → Nat → Nat → Nat → Nat → Rgba
  match_extremes : GrayImage → GrayImage → Extremes

/-- MatchErrorCode from template_matcher.rs. -/
inductive MatchErrorCode where
  | ScreenshotDecodeError
  | TemplateBase64DecodeError
  | TemplateImageDecodeError
  | InsufficientOpacity
  | NonFiniteConfidence
  | TemplateTooLarge
deriving DecidableEq

/-- MatchErrorCode::is_permanent. -/
def MatchErrorCode.is_permanent : MatchErrorCode → Bool
  | .ScreenshotDecodeError => false
  | .TemplateBase64DecodeError => true
  | .TemplateImageDecodeError => true
  | .InsufficientOpacity => true
  | .NonFiniteConfidence => true
  | .TemplateTooLarge => false

/-- MatchErrorCode::is_size_related. -/
def MatchErrorCode.is_size_related : MatchErrorCode → Bool
  | .TemplateTooLarge => true
  | _ => false

/-- MatchResult from template_matcher.rs. -/
structure MatchResult where
  found : Bool
  center_x : Option ℤ
  center_y : Option ℤ
  confidence : Option FVal
  template_width : Nat
  template_height : Nat
  error : Option String
  error_code : Option MatchErrorCode
deriving DecidableEq

/-- XenotesterError as used here: only the ImageError variant is constructed
by this module. -/
inductive XenotesterError where
  | ImageError (msg : String)
deriving DecidableEq

/-- Display of XenotesterError (thiserror attribute in error.rs). -/
def XenotesterError.display : XenotesterError → String
  | .ImageError m => "Image processing error: " ++ m

/-- decode_base64_image from template_matcher.rs. -/
def decode_base64_image (ext : Externals) (base64_data : String) :
    Except XenotesterError RgbaImage :=
  match ext.b64decode base64_data with
  | .error e => .error (.ImageError ("Base64 decode error: " ++ e))
  | .ok bytes =>
      match ext.load_from_memory bytes with
      | .error e => .error (.ImageError ("Image decode error: " ++ e))
      | .ok img => .ok img

/-- decode_template_image from template_matcher.rs. -/
def decode_template_image (ext : Externals) (base64_data : String) :
    Except (String × MatchErrorCode) RgbaImage :=
  match ext.b64decode base64_data with
  | .error e =>
      .error ("Base64 decode error: " ++ e, MatchErrorCode.TemplateBase64DecodeError)
  | .ok bytes =>
      match ext.load_from_memory bytes with
      | .ok img => .ok img
      | .error e =>
          .error ("Image decode error: " ++ e, MatchErrorCode.TemplateImageDecodeError)

/-- MIN_OPACITY_RATIO from template_matcher.rs (0.1). -/
def minOpacityRatio : ℚ := 1 / 10

/-- Number of pixels with alpha strictly greater than 0. -/
def opaquePixelCount (img : RgbaImage) : ℕ :=
  ((List.range img.height).map (fun y =>
    ((List.range img.width).filter (fun x => 0 < (img.pix x y).a)).length)).sum

/-- calculate_opacity_ratio from template_matcher.rs. -/
def calculate_opacity_ratio (img : RgbaImage) : ℚ :=
  if img.width * img.height = 0 then 0
  else (opaquePixelCount img : ℚ) / ((img.width * img.height : ℕ) : ℚ)

/-- The per-pixel computation inside convert_to_grayscale_with_alpha:
composite onto white by alpha, then the 0.299 / 0.587 / 0.114 luminance,
rounded and cast to u8. -/
def compositePixel (p : Rgba) : ℕ :=
  let alpha : ℚ := (p.a : ℚ) / 255
  let r : ℚ := (p.r : ℚ) * alpha + 255 * (1 - alpha)
  let g : ℚ := (p.g : ℚ) * alpha + 255 * (1 - alpha)
  let b : ℚ := (p.b : ℚ) * alpha + 255 * (1 - alpha)
  satU8 (roundAway (299 / 1000 * r + 587 / 1000 * g + 114 / 1000 * b))

/-- convert_to_grayscale_with_alpha from template_matcher.rs. -/
def convert_to_grayscale_with_alpha (image : RgbaImage) : GrayImage :=
  { width := image.width
    height := image.height
    pix := fun x y => compositePixel (image.pix x y) }

/-- The scale-alignment block of find_template_internal: when
scale_factor < 1.0, resize_exact to round(orig * scale) clamped to a minimum
of 1; otherwise use the template at its original size. -/
def scale_template (ext : Externals) (template_original : RgbaImage)
    (scale_factor : ℚ) : RgbaImage :=
  if scale_factor < 1 then
    let new_w := max (satU32 (roundAway ((template_original.width : ℚ) * scale_factor))) 1
    let new_h := max (satU32 (roundAway ((template_original.height : ℚ) * scale_factor))) 1
    { width := new_w
      height := new_h
      pix := ext.resample template_original new_w new_h }
  else template_original

/-- Renders a rational with one digit after the decimal point, for the
insufficient-opacity message (the {:.1} format of the source). -/
def fmtTenths (q : ℚ) : String :=
  let n := (roundAway (q * 10)).toNat
  toString (n / 10) ++ "." ++ toString (n % 10)

/-- The message built by the InsufficientOpacity branch of
find_template_internal. -/
def opacityErrorMessage (opacity_ratio : ℚ) : String :=
  "Template has insufficient opacity (" ++ fmtTenths (opacity_ratio * 100) ++
    "% < " ++ fmtTenths ( minOpacityRatio * 100) ++
    "% minimum). Mostly transparent images cannot be reliably matched."

/-- The message of the TemplateTooLarge branch. -/
def tooLargeMessage : String :=
  "Template is larger than screenshot after scaling"

/-- The message of the NonFiniteConfidence branch. -/
def nonFiniteMessage : String :=
  "Template matching produced non-finite confidence value. Template may have insufficient variance (e.g., single-color image)."

/-- find_template_internal from template_matcher.rs. -/
def find_template_internal (ext : Externals) (screenshot_gray : GrayImage)
    (template_base64 : String) (scale_factor : ℚ)
    (confidence_threshold : ℚ) : MatchResult :=
  match decode_template_image ext template_base64 with
  | .error (error_msg, error_code) =>
      { found := false
        center_x := none
        center_y := none
        confidence := none
        template_width := 0
        template_height := 0
        error := some error_msg
        error_code := some error_code }
  | .ok template_original =>
      let template := scale_template ext template_original scale_factor
      let opacity_ratio := calculate_opacity_ratio template
      if opacity_ratio < minOpacityRatio then
        { found := false
          center_x := none
          center_y := none
          confidence := none
          template_width := template.width
          template_height := template.height
          error := some (opacityErrorMessage opacity_ratio)
          error_code := some MatchErrorCode.InsufficientOpacity }
      else
        let template_gray := convert_to_grayscale_with_alpha template
        let template_width := template_gray.width
        let template_height := template_gray.height
        if template_width > screenshot_gray.width ∨
            template_height > screenshot_gray.height then
          { found := false
            center_x := none
            center_y := none
            confidence := some (FVal.finite 0)
            template_width := template_width
            template_height := template_height
            error := some tooLargeMessage
            error_code := some MatchErrorCode.TemplateTooLarge }
        else
          let extremes := ext.match_extremes screenshot_gray template_gray
          let confidence := extremes.max_value
          if confidence.isFinite = false then
            { found := false
              center_x := none
              center_y := none
              confidence := none
              template_width := template_width
              template_height := template_height
              error := some nonFiniteMessage
              error_code := some MatchErrorCode.NonFiniteConfidence }
          else if confidence.geThreshold confidence_threshold then
            let match_x := extremes.max_value_location.1
            let match_y := extremes.max_value_location.2
            { found := true
              center_x := some ((match_x : ℤ) + ((template_width / 2 : ℕ) : ℤ))
              center_y := some ((match_y : ℤ) + ((template_height / 2 : ℕ) : ℤ))
              confidence := some confidence
              template_width := template_width
              template_height := template_height
              error := none
              error_code := none }
          else
            { found := false
              center_x := none
              center_y := none
              confidence := some confidence
              template_width := template_width
              template_height := template_height
              error := none
              error_code := none }

/-- find_template_with_decoded_screenshot from template_matcher.rs. -/
def find_template_with_decoded_screenshot (ext : Externals)
    (screenshot_gray : GrayImage) (template_base64 : String)
    (scale_factor : ℚ) (confidence_threshold : ℚ) : MatchResult :=
  find_template_internal ext screenshot_gray template_base64 scale_factor
    confidence_threshold

/-- find_template_in_screenshot from template_matcher.rs. -/
def find_template_in_screenshot (ext : Externals) (screenshot_base64 : String)
    (template_base64 : String) (scale_factor : ℚ)
    (confidence_threshold : ℚ) : MatchResult :=
  match decode_base64_image ext screenshot_base64 with
  | .error e =>
      { found := false
        center_x := none
        center_y := none
        confidence := none
        template_width := 0
        template_height := 0
        error := some e.display
        error_code := some MatchErrorCode.ScreenshotDecodeError }
  | .ok screenshot =>
      let screenshot_gray := ext.to_luma8 screenshot
      find_template_with_decoded_screenshot ext screenshot_gray template_base64
        scale_factor confidence_threshold

/-- match_templates_batch from template_matcher.rs; templates are
(base64_data, file_name) pairs. -/
def match_templates_batch (ext : Externals) (screenshot_base64 : String)
    (templates : List (String × String)) (scale_factor : ℚ)
    (confidence_threshold : ℚ) : List (String × MatchResult) :=
  match decode_base64_image ext screenshot_base64 with
  | .error e =>
      let error_result : MatchResult :=
        { found := false
          center_x := none
          center_y := none
          confidence := none
          template_width := 0
          template_height := 0
          error := some ("Screenshot decode error: " ++ e.display)
          error_code := some MatchErrorCode.ScreenshotDecodeError }
      templates.map (fun t => (t.2, error_result))
  | .ok screenshot =>
      let screenshot_gray := ext.to_luma8 screenshot
      templates.map (fun t =>
        (t.2, find_template_with_decoded_screenshot ext screenshot_gray t.1
          scale_factor confidence_threshold))

/-- TemplateImage from commands/template_match.rs. -/
structure TemplateImage where
  image_data : String
  file_name : String
deriving DecidableEq

/-- HintImageMatchResult from commands/template_match.rs. -/
structure HintImageMatchResult where
  index : ℕ
  file_name : String
  match_result : MatchResult
deriving DecidableEq

/-- match_hint_images from commands/template_match.rs. -/
def match_hint_images (ext : Externals) (screenshot_base64 : String)
    (template_images : List TemplateImage) (scale_factor : ℚ)
    (confidence_threshold : Option ℚ) : List HintImageMatchResult :=
  let threshold := confidence_threshold.getD (7 / 10)
  let templates := template_images.map (fun t => (t.image_data, t.file_name))
  let batch_results :=
    match_templates_batch ext screenshot_base64 templates scale_factor threshold
  batch_results.enum.map (fun p =>
    { index := p.1, file_name := p.2.1, match_result := p.2.2 })

/-- The value match_templates_batch assigns to one template slot: either the
shared screenshot-decode error or the per-template pipeline result. -/
def batch_slot (ext : Externals) (screenshot_base64 : String)
    (scale_factor : ℚ) (confidence_threshold : ℚ)
    (t : String × String) : String × MatchResult :=
  match decode_base64_image ext screenshot_base64 with
  | .error e =>
      (t.2,
        { found := false
          center_x := none
          center_y := none
          confidence := none
          template_width := 0
          template_height := 0
          error := some ("Screenshot decode error: " ++ e.display)
          error_code := some MatchErrorCode.ScreenshotDecodeError })
  | .ok screenshot =>
      (t.2, find_template_with_decoded_screenshot ext (ext.to_luma8 screenshot)
        t.1 scale_factor confidence_threshold)

/-- A single RGBA constant image, for concrete witnesses. -/
def constImage (w h : ℕ) (p : Rgba) : RgbaImage :=
  { width := w, height := h, pix := fun _ _ => p }

/-- A constant grayscale image, for concrete witnesses. -/
def grayConst (w h v : ℕ) : GrayImage :=
  { width := w, height := h, pix := fun _ _ => v }

/-- An environment whose base64 decoding always fails, for concrete
witnesses of the screenshot-decode-error paths. -/
def extB64Fail : Externals :=
  { b64decode := fun _ => .error ("invalid")
    load_from_memory := fun _ => .error ("invalid")
    to_luma8 := fun _ => grayConst 0 0 0
    resample := fun i _ _ x y => i.pix x y
    match_extremes := fun _ _ => { max_value := .finite 0, max_value_location := (0, 0) } }

/-- An environment whose decoding always yields the given template image,
whose luma conversion yields the given screenshot, and whose correlation
oracle yields the given extremes; for concrete witnesses. -/
def extWith (img : RgbaImage) (shot : GrayImage) (ex : Extremes) : Externals :=
  { b64decode := fun _ => .ok []
    load_from_memory := fun _ => .ok img
    to_luma8 := fun _ => shot
    resample := fun i _ _ x y => i.pix x y
    match_extremes := fun _ _ => ex }

/-- Fully opaque white pixel, for concrete witnesses. -/
def whitePix : Rgba := { r := 255, g := 255, b := 255, a := 255 }

/-- Fully transparent pixel, for concrete witnesses. -/
def clearPix : Rgba := { r := 0, g := 0, b := 0, a := 0 }

/-- Environment decoding to a 1 by 1 opaque template whose correlation
maximum is the finite value 1/2 at (2, 3); for concrete witnesses. -/
def extHalf : Externals :=
  extWith (constImage 1 1 whitePix) (grayConst 5 5 128)
    { max_value := .finite (1 / 2), max_value_location := (2, 3) }

/-- Environment decoding to a 1 by 1 opaque template whose correlation
maximum is NaN; for concrete witnesses. -/
def extNan : Externals :=
  extWith (constImage 1 1 whitePix) (grayConst 5 5 128)
    { max_value := .nan, max_value_location := (0, 0) }

/-- Environment decoding to a 2 by 2 opaque template; for concrete
witnesses of the size guard. -/
def extBig : Externals :=
  extWith (constImage 2 2 whitePix) (grayConst 1 1 128)
    { max_value := .finite 0, max_value_location := (0, 0) }

/-- Environment decoding to a 2 by 2 fully transparent template; for
concrete witnesses of the opacity gate. -/
def extClear : Externals :=
  extWith (constImage 2 2 clearPix) (grayConst 5 5 128)
    { max_value := .finite 0, max_value_location := (0, 0) }

/- ------------------------------------------------------------------ -/
/- Helper lemmas                                                      -/
/- ------------------------------------------------------------------ -/

theorem match_templates_batch_eq_map (ext : Externals) (sb : String)
    (templates : List (String × String)) (s th : ℚ) :
    match_templates_batch ext sb templates s th =
      templates.map (batch_slot ext sb s th) := by
  unfold match_templates_batch batch_slot
  cases hdec : decode_base64_image ext sb <;> simp [hdec]

theorem batch_slot_fst (ext : Externals) (sb : String) (s th : ℚ)
    (t : String × String) : (batch_slot ext sb s th t).1 = t.2 := by
  unfold batch_slot
  cases decode_base64_image ext sb <;> rfl

theorem floor_natCast_add_half (n : ℕ) : ⌊(n : ℚ) + 1 / 2⌋ = (n : ℤ) := by
  rw [Int.floor_eq_iff]
  constructor <;> push_cast <;> linarith

theorem roundAway_natCast (n : ℕ) : roundAway (n : ℚ) = (n : ℤ) := by
  unfold roundAway
  rw [if_pos (by positivity), floor_natCast_add_half]

theorem roundAway_nonneg (q : ℚ) (h : 0 ≤ q) : 0 ≤ roundAway q := by
  unfold roundAway
  rw [if_pos h]
  exact Int.le_floor.mpr (by push_cast; linarith)

theorem roundAway_le_nat (q : ℚ) (n : ℕ) (h0 : 0 ≤ q) (h : q ≤ n) :
    roundAway q ≤ (n : ℤ) := by
  unfold roundAway
  rw [if_pos h0]
  calc ⌊q + 1 / 2⌋ ≤ ⌊(n : ℚ) + 1 / 2⌋ := Int.floor_le_floor (by linarith)
    _ = (n : ℤ) := floor_natCast_add_half n

theorem satU32_of_bounds (z : ℤ) (h0 : 0 ≤ z) (h1 : z ≤ 2 ^ 32 - 1) :
    satU32 z = z.toNat := by
  unfold satU32
  rw [min_eq_left h1, max_eq_right h0]

theorem fti_opacity_branch (ext : Externals) (shot : GrayImage) (tb : String)
    (s th : ℚ) (timg : RgbaImage)
    (hdec : decode_template_image ext tb = .ok timg)
    (hop : calculate_opacity_ratio (scale_template ext timg s) < minOpacityRatio) :
    find_template_internal ext shot tb s th =
      { found := false
        center_x := none
        center_y := none
        confidence := none
        template_width := (scale_template ext timg s).width
        template_height := (scale_template ext timg s).height
        error := some (opacityErrorMessage
          (calculate_opacity_ratio (scale_template ext timg s)))
        error_code := some MatchErrorCode.InsufficientOpacity } := by
  unfold find_template_internal
  rw [hdec]
  simp only [if_pos hop]

theorem fti_too_large_branch (ext : Externals) (shot : GrayImage) (tb : String)
    (s th : ℚ) (timg : RgbaImage)
    (hdec : decode_template_image ext tb = .ok timg)
    (hop : ¬ calculate_opacity_ratio (scale_template ext timg s) < minOpacityRatio)
    (hsize : (convert_to_grayscale_with_alpha (scale_template ext timg s)).width >
        shot.width ∨
      (convert_to_grayscale_with_alpha (scale_template ext timg s)).height >
        shot.height) :
    find_template_internal ext shot tb s th =
      { found := false
        center_x := none
        center_y := none
        confidence := some (FVal.finite 0)
        template_width := (scale_template ext timg s).width
        template_height := (scale_template ext timg s).height
        error := some tooLargeMessage
        error_code := some MatchErrorCode.TemplateTooLarge } := by
  unfold find_template_internal
  rw [hdec]
  simp only [if_neg hop, if_pos hsize]
  rfl

theorem fti_nonfinite_branch (ext : Externals) (shot : GrayImage) (tb : String)
    (s th : ℚ) (timg : RgbaImage)
    (hdec : decode_template_image ext tb = .ok timg)
    (hop : ¬ calculate_opacity_ratio (scale_template ext timg s) < minOpacityRatio)
    (hsize : ¬ ((convert_to_grayscale_with_alpha (scale_template ext timg s)).width >
        shot.width ∨
      (convert_to_grayscale_with_alpha (scale_template ext timg s)).height >
        shot.height))
    (hfin : (ext.match_extremes shot
        (convert_to_grayscale_with_alpha (scale_template ext timg s))).max_value.isFinite
      = false) :
    find_template_internal ext shot tb s th =
      { found := false
        center_x := none
        center_y := none
        confidence := none
        template_width := (scale_template ext timg s).width
        template_height := (scale_template ext timg s).height
        error := some nonFiniteMessage
        error_code := some MatchErrorCode.NonFiniteConfidence } := by
  unfold find_template_internal
  rw [hdec]
  simp only [if_neg hop, if_neg hsize, if_pos hfin]
  rfl

theorem fti_found_branch (ext : Externals) (shot : GrayImage) (tb : String)
    (s th : ℚ) (timg : RgbaImage) (c : ℚ) (x y : ℕ)
    (hdec : decode_template_image ext tb = .ok timg)
    (hop : ¬ calculate_opacity_ratio (scale_template ext timg s) < minOpacityRatio)
    (hsize : ¬ ((convert_to_grayscale_with_alpha (scale_template ext timg s)).width >
        shot.width ∨
      (convert_to_grayscale_with_alpha (scale_template ext timg s)).height >
        shot.height))
    (hex : ext.match_extremes shot
        (convert_to_grayscale_with_alpha (scale_template ext timg s)) =
      { max_value := .finite c, max_value_location := (x, y) })
    (hge : th ≤ c) :
    find_template_internal ext shot tb s th =
      { found := true
        center_x := some ((x : ℤ) +
          (((scale_template ext timg s).width / 2 : ℕ) : ℤ))
        center_y := some ((y : ℤ) +
          (((scale_template ext timg s).height / 2 : ℕ) : ℤ))
        confidence := some (FVal.finite c)
        template_width := (scale_template ext timg s).width
        template_height := (scale_template ext timg s).height
        error := none
        error_code := none } := by
  unfold find_template_internal
  rw [hdec]
  simp only [if_neg hop, if_neg hsize, hex, FVal.isFinite, FVal.geThreshold,
    decide_eq_true_eq, if_pos hge]
  simp [convert_to_grayscale_with_alpha]

theorem fti_notfound_branch (ext : Externals) (shot : GrayImage) (tb : String)
    (s th : ℚ) (timg : RgbaImage) (c : ℚ) (x y : ℕ)
    (hdec : decode_template_image ext tb = .ok timg)
    (hop : ¬ calculate_opacity_ratio (scale_template ext timg s) < minOpacityRatio)
    (hsize : ¬ ((convert_to_grayscale_with_alpha (scale_template ext timg s)).width >
        shot.width ∨
      (convert_to_grayscale_with_alpha (scale_template ext timg s)).height >
        shot.height))
    (hex : ext.match_extremes shot
        (convert_to_grayscale_with_alpha (scale_template ext timg s)) =
      { max_value := .finite c, max_value_location := (x, y) })
    (hlt : ¬ th ≤ c) :
    find_template_internal ext shot tb s th =
      { found := false
        center_x := none
        center_y := none
        confidence := some (FVal.finite c)
        template_width := (scale_template ext timg s).width
        template_height := (scale_template ext timg s).height
        error := none
        error_code := none } := by
  unfold find_template_internal
  rw [hdec]
  simp only [if_neg hop, if_neg hsize, hex, FVal.isFinite, FVal.geThreshold,
    decide_eq_true_eq, if_neg hlt]
  simp [convert_to_grayscale_with_alpha]

theorem satU8_of_bounds (z : ℤ) (h0 : 0 ≤ z) (h1 : z ≤ 255) :
    satU8 z = z.toNat := by
  unfold satU8
  rw [min_eq_left h1, max_eq_right h0]

theorem compositePixel_spec (p : Rgba) (hr : p.r ≤ 255) (hg : p.g ≤ 255)
    (hb : p.b ≤ 255) (ha : p.a ≤ 255) :
    ((compositePixel p : ℕ) : ℤ) =
      roundAway (299 / 1000 *
          ((p.r : ℚ) * ((p.a : ℚ) / 255) + 255 * (1 - (p.a : ℚ) / 255)) +
        587 / 1000 *
          ((p.g : ℚ) * ((p.a : ℚ) / 255) + 255 * (1 - (p.a : ℚ) / 255)) +
        114 / 1000 *
          ((p.b : ℚ) * ((p.a : ℚ) / 255) + 255 * (1 - (p.a : ℚ) / 255))) := by
  have hr0 : (0 : ℚ) ≤ (p.r : ℚ) := Nat.cast_nonneg _
  have hg0 : (0 : ℚ) ≤ (p.g : ℚ) := Nat.cast_nonneg _
  have hb0 : (0 : ℚ) ≤ (p.b : ℚ) := Nat.cast_nonneg _
  have hr1 : (p.r : ℚ) ≤ 255 := by exact_mod_cast hr
  have hg1 : (p.g : ℚ) ≤ 255 := by exact_mod_cast hg
  have hb1 : (p.b : ℚ) ≤ 255 := by exact_mod_cast hb
  have ha0 : (0 : ℚ) ≤ (p.a : ℚ) / 255 := by positivity
  have ha1 : (p.a : ℚ) / 255 ≤ 1 := by
    rw [div_le_one (by norm_num)]
    exact_mod_cast ha
  have hcr0 : (0 : ℚ) ≤ (p.r : ℚ) * ((p.a : ℚ) / 255) +
      255 * (1 - (p.a : ℚ) / 255) := by nlinarith
  have hcg0 : (0 : ℚ) ≤ (p.g : ℚ) * ((p.a : ℚ) / 255) +
      255 * (1 - (p.a : ℚ) / 255) := by nlinarith
  have hcb0 : (0 : ℚ) ≤ (p.b : ℚ) * ((p.a : ℚ) / 255) +
      255 * (1 - (p.a : ℚ) / 255) := by nlinarith
  have hcr1 : (p.r : ℚ) * ((p.a : ℚ) / 255) +
      255 * (1 - (p.a : ℚ) / 255) ≤ 255 := by nlinarith
  have hcg1 : (p.g : ℚ) * ((p.a : ℚ) / 255) +
      255 * (1 - (p.a : ℚ) / 255) ≤ 255 := by nlinarith
  have hcb1 : (p.b : ℚ) * ((p.a : ℚ) / 255) +
      255 * (1 - (p.a : ℚ) / 255) ≤ 255 := by nlinarith
  have hL0 : (0 : ℚ) ≤ 299 / 1000 *
        ((p.r : ℚ) * ((p.a : ℚ) / 255) + 255 * (1 - (p.a : ℚ) / 255)) +
      587 / 1000 *
        ((p.g : ℚ) * ((p.a : ℚ) / 255) + 255 * (1 - (p.a : ℚ) / 255)) +
      114 / 1000 *
        ((p.b : ℚ) * ((p.a : ℚ) / 255) + 255 * (1 - (p.a : ℚ) / 255)) := by
    linarith
  have hL1 : 299 / 1000 *
        ((p.r : ℚ) * ((p.a : ℚ) / 255) + 255 * (1 - (p.a : ℚ) / 255)) +
      587 / 1000 *
        ((p.g : ℚ) * ((p.a : ℚ) / 255) + 255 * (1 - (p.a : ℚ) / 255)) +
      114 / 1000 *
        ((p.b : ℚ) * ((p.a : ℚ) / 255) + 255 * (1 - (p.a : ℚ) / 255)) ≤
      ((255 : ℕ) : ℚ) := by
    push_cast
    linarith
  have h0 := roundAway_nonneg _ hL0
  have h255i := roundAway_le_nat _ 255 hL0 hL1
  have h255 : roundAway (299 / 1000 *
        ((p.r : ℚ) * ((p.a : ℚ) / 255) + 255 * (1 - (p.a : ℚ) / 255)) +
      587 / 1000 *
        ((p.g : ℚ) * ((p.a : ℚ) / 255) + 255 * (1 - (p.a : ℚ) / 255)) +
      114 / 1000 *
        ((p.b : ℚ) * ((p.a : ℚ) / 255) + 255 * (1 - (p.a : ℚ) / 255))) ≤
      (255 : ℤ) := by exact_mod_cast h255i
  simp only [compositePixel]
  rw [satU8_of_bounds _ h0 h255, Int.toNat_of_nonneg h0]

theorem scale_template_one (ext : Externals) (timg : RgbaImage) :
    scale_template ext timg 1 = timg := by
  unfold scale_template
  rw [if_neg (lt_irrefl (1 : ℚ))]

theorem opacity_ratio_const_opaque (w h : ℕ) (p : Rgba) (hw : w ≠ 0)
    (hh : h ≠ 0) (hp : 0 < p.a) :
    calculate_opacity_ratio (constImage w h p) = 1 := by
  have hc : opaquePixelCount (constImage w h p) = w * h := by
    unfold opaquePixelCount constImage
    simp [hp, List.filter_true, Nat.mul_comm]
  unfold calculate_opacity_ratio
  rw [if_neg (by simp [constImage, hw, hh])]
  have hwh : (((constImage w h p).width * (constImage w h p).height : ℕ) : ℚ) ≠ 0 := by
    simp [constImage, hw, hh]
  rw [hc]
  exact div_self hwh

theorem opacity_ratio_const_clear (w h : ℕ) (p : Rgba) (hp : p.a = 0) :
    calculate_opacity_ratio (constImage w h p) = 0 := by
  have hc : opaquePixelCount (constImage w h p) = 0 := by
    unfold opaquePixelCount constImage
    simp [hp]
  unfold calculate_opacity_ratio
  split
  · rfl
  · rw [hc]
    simp

theorem fti_confidence_finite (ext : Externals) (shot : GrayImage)
    (tb : String) (s th : ℚ) (c : FVal)
    (h : (find_template_internal ext shot tb s th).confidence = some c) :
    c.isFinite = true := by
  rcases hdec : decode_template_image ext tb with p | timg
  · obtain ⟨m, cd⟩ := p
    have hr : find_template_internal ext shot tb s th =
        { found := false, center_x := none, center_y := none,
          confidence := none, template_width := 0, template_height := 0,
          error := some m, error_code := some cd } := by
      unfold find_template_internal
      rw [hdec]
    rw [hr] at h
    simp at h
  · by_cases hop : calculate_opacity_ratio (scale_template ext timg s) <
        minOpacityRatio
    · rw [fti_opacity_branch ext shot tb s th timg hdec hop] at h
      simp at h
    · by_cases hsize :
          (convert_to_grayscale_with_alpha (scale_template ext timg s)).width >
            shot.width ∨
          (convert_to_grayscale_with_alpha (scale_template ext timg s)).height >
            shot.height
      · rw [fti_too_large_branch ext shot tb s th timg hdec hop hsize] at h
        simp at h
        subst h
        rfl
      · rcases hfv : (ext.match_extremes shot
            (convert_to_grayscale_with_alpha (scale_template ext timg s))).max_value
          with q | _ | _ | _
        · have hex : ext.match_extremes shot
              (convert_to_grayscale_with_alpha (scale_template ext timg s)) =
              { max_value := FVal.finite q,
                max_value_location := (ext.match_extremes shot
                  (convert_to_grayscale_with_alpha
                    (scale_template ext timg s))).max_value_location } := by
            rw [← hfv]
          by_cases hge : th ≤ q
          · rw [fti_found_branch ext shot tb s th timg q
              ((ext.match_extremes shot (convert_to_grayscale_with_alpha
                (scale_template ext timg s))).max_value_location.1)
              ((ext.match_extremes shot (convert_to_grayscale_with_alpha
                (scale_template ext timg s))).max_value_location.2)
              hdec hop hsize hex hge] at h
            simp at h
            subst h
            rfl
          · rw [fti_notfound_branch ext shot tb s th timg q
              ((ext.match_extremes shot (convert_to_grayscale_with_alpha
                (scale_template ext timg s))).max_value_location.1)
              ((ext.match_extremes shot (convert_to_grayscale_with_alpha
                (scale_template ext timg s))).max_value_location.2)
              hdec hop hsize hex hge] at h
            simp at h
            subst h
            rfl
        · rw [fti_nonfinite_branch ext shot tb s th timg hdec hop hsize
            (by rw [hfv]; rfl)] at h
          simp at h
        · rw [fti_nonfinite_branch ext shot tb s th timg hdec hop hsize
            (by rw [hfv]; rfl)] at h
          simp at h
        · rw [fti_nonfinite_branch ext shot tb s th timg hdec hop hsize
            (by rw [hfv]; rfl)] at h
          simp at h

/- ------------------------------------------------------------------ -/
/- Claims                                                             -/
/- ------------------------------------------------------------------ -/

/-- C9: the derived facets of the closed error-code enumeration match the
taxonomy table: is_permanent holds exactly for TemplateBase64DecodeError,
TemplateImageDecodeError, InsufficientOpacity and NonFiniteConfidence, and
is_size_related holds for TemplateTooLarge only. -/
theorem c9_error_code_facets :
    (MatchErrorCode.ScreenshotDecodeError.is_permanent = false ∧
     MatchErrorCode.TemplateBase64DecodeError.is_permanent = true ∧
     MatchErrorCode.TemplateImageDecodeError.is_permanent = true ∧
     MatchErrorCode.InsufficientOpacity.is_permanent = true ∧
     MatchErrorCode.NonFiniteConfidence.is_permanent = true ∧
     MatchErrorCode.TemplateTooLarge.is_permanent = false) ∧
    (MatchErrorCode.ScreenshotDecodeError.is_size_related = false ∧
     MatchErrorCode.TemplateBase64DecodeError.is_size_related = false ∧
     MatchErrorCode.TemplateImageDecodeError.is_size_related = false ∧
     MatchErrorCode.InsufficientOpacity.is_size_related = false ∧
     MatchErrorCode.NonFiniteConfidence.is_size_related = false ∧
     MatchErrorCode.TemplateTooLarge.is_size_related = true) := by
  decide

/-- C2: when the screenshot bytes fail to decode, every template slot of the
batch output receives the identical found = false ScreenshotDecodeError
result, one entry per input template in input order, and the per-template
pipeline is never run (the slot value does not depend on the template
data). -/
theorem c2_batch_screenshot_decode_error (ext : Externals)
    (screenshot_base64 : String) (templates : List (String × String))
    (scale_factor confidence_threshold : ℚ) (e : XenotesterError)
    (hdec : decode_base64_image ext screenshot_base64 = .error e) :
    match_templates_batch ext screenshot_base64 templates scale_factor
        confidence_threshold =
      templates.map (fun t => (t.2,
        { found := false
          center_x := none
          center_y := none
          confidence := none
          template_width := 0
          template_height := 0
          error := some ("Screenshot decode error: " ++ e.display)
          error_code := some MatchErrorCode.ScreenshotDecodeError })) ∧
    (match_templates_batch ext screenshot_base64 templates scale_factor
        confidence_threshold).length = templates.length := by
  have hbatch : match_templates_batch ext screenshot_base64 templates
      scale_factor confidence_threshold =
      templates.map (fun t => (t.2,
        { found := false
          center_x := none
          center_y := none
          confidence := none
          template_width := 0
          template_height := 0
          error := some ("Screenshot decode error: " ++ e.display)
          error_code := some MatchErrorCode.ScreenshotDecodeError })) := by
    unfold match_templates_batch
    rw [hdec]
  exact ⟨hbatch, by rw [hbatch]; exact List.length_map ..⟩

/-- Witness for C2 at a concrete failing environment and two templates. -/
theorem c2_batch_screenshot_decode_error_witness :
    match_templates_batch extB64Fail ("shot") [("t0", "a.png"), ("t1", "b.png")]
        1 (7 / 10) =
      [("t0", "a.png"), ("t1", "b.png")].map (fun t => (t.2,
        { found := false
          center_x := none
          center_y := none
          confidence := none
          template_width := 0
          template_height := 0
          error := some ("Screenshot decode error: " ++
            (XenotesterError.ImageError ("Base64 decode error: " ++ "invalid")).display)
          error_code := some MatchErrorCode.ScreenshotDecodeError })) ∧
    (match_templates_batch extB64Fail ("shot") [("t0", "a.png"), ("t1", "b.png")]
        1 (7 / 10)).length = [("t0", "a.png"), ("t1", "b.png")].length :=
  c2_batch_screenshot_decode_error extB64Fail ("shot")
    [("t0", "a.png"), ("t1", "b.png")] 1 (7 / 10)
    (XenotesterError.ImageError ("Base64 decode error: " ++ "invalid")) (by rfl)

/-- C10: every decode failure (template base64 or template image decode in
the per-template pipeline; screenshot decode in the single call or in the
batch call) yields a MatchResult with template_width = 0,
template_height = 0, found = false and no confidence. -/
theorem c10_decode_failure_zero_dims (ext : Externals) (shot : GrayImage)
    (sb tb : String) (templates : List (String × String)) (s th : ℚ) :
    (∀ msg code, decode_template_image ext tb = .error (msg, code) →
      find_template_internal ext shot tb s th =
        { found := false
          center_x := none
          center_y := none
          confidence := none
          template_width := 0
          template_height := 0
          error := some msg
          error_code := some code }) ∧
    (∀ e, decode_base64_image ext sb = .error e →
      find_template_in_screenshot ext sb tb s th =
        { found := false
          center_x := none
          center_y := none
          confidence := none
          template_width := 0
          template_height := 0
          error := some e.display
          error_code := some MatchErrorCode.ScreenshotDecodeError }) ∧
    (∀ e, decode_base64_image ext sb = .error e →
      ∀ r ∈ match_templates_batch ext sb templates s th,
        r.2.found = false ∧ r.2.confidence = none ∧
        r.2.template_width = 0 ∧ r.2.template_height = 0 ∧
        r.2.error_code = some MatchErrorCode.ScreenshotDecodeError) := by
  refine ⟨?_, ?_, ?_⟩
  · intro msg code h
    unfold find_template_internal
    rw [h]
  · intro e h
    unfold find_template_in_screenshot
    rw [h]
  · intro e h r hr
    rw [match_templates_batch_eq_map] at hr
    obtain ⟨t, _, rfl⟩ := List.mem_map.mp hr
    unfold batch_slot
    rw [h]
    exact ⟨rfl, rfl, rfl, rfl, rfl⟩

/-- Witness for C10: the three decode-failure paths at a concrete failing
environment. -/
theorem c10_decode_failure_zero_dims_witness :
    (find_template_internal extB64Fail (grayConst 4 4 0) ("t") 1 (1 / 2) =
      { found := false
        center_x := none
        center_y := none
        confidence := none
        template_width := 0
        template_height := 0
        error := some ("Base64 decode error: " ++ "invalid")
        error_code := some MatchErrorCode.TemplateBase64DecodeError }) ∧
    (find_template_in_screenshot extB64Fail ("s") ("t") 1 (1 / 2) =
      { found := false
        center_x := none
        center_y := none
        confidence := none
        template_width := 0
        template_height := 0
        error := some ((XenotesterError.ImageError
          ("Base64 decode error: " ++ "invalid")).display)
        error_code := some MatchErrorCode.ScreenshotDecodeError }) ∧
    (("n", ({ found := false
              center_x := none
              center_y := none
              confidence := none
              template_width := 0
              template_height := 0
              error := some ("Screenshot decode error: " ++
                (XenotesterError.ImageError ("Base64 decode error: " ++ "invalid")).display)
              error_code := some MatchErrorCode.ScreenshotDecodeError } :
            MatchResult)) : String × MatchResult).2.found = false :=
  have h := c10_decode_failure_zero_dims extB64Fail (grayConst 4 4 0)
    ("s") ("t") [("t", "n")] 1 (1 / 2)
  ⟨h.1 ("Base64 decode error: " ++ "invalid")
      MatchErrorCode.TemplateBase64DecodeError (by rfl),
   h.2.1 (XenotesterError.ImageError ("Base64 decode error: " ++ "invalid")) (by rfl),
   (h.2.2 (XenotesterError.ImageError ("Base64 decode error: " ++ "invalid")) (by rfl)
     _ (by decide)).1⟩

/-- C1: batch calls preserve length and input order: the result list of
match_templates_batch has the same length as the template list and its slot
at index i is exactly the slot computed for the template at index i (equal
to the sole slot of the one-element batch of that template); likewise
match_hint_images yields one entry per input, carrying index i and the file
name of input i, whose match_result is that of the one-element batch of
input i. -/
theorem c1_batch_preserves_length_and_order (ext : Externals)
    (screenshot_base64 : String) (templates : List (String × String))
    (template_images : List TemplateImage)
    (scale_factor confidence_threshold : ℚ) (threshold_opt : Option ℚ) :
    (match_templates_batch ext screenshot_base64 templates scale_factor
        confidence_threshold).length = templates.length ∧
    (∀ (i : ℕ) (t : String × String), templates[i]? = some t →
      (match_templates_batch ext screenshot_base64 templates scale_factor
          confidence_threshold)[i]? =
        (match_templates_batch ext screenshot_base64 [t] scale_factor
          confidence_threshold)[0]?) ∧
    (match_hint_images ext screenshot_base64 template_images scale_factor
        threshold_opt).length = template_images.length ∧
    (∀ (i : ℕ) (t : TemplateImage), template_images[i]? = some t →
      ∃ r, (match_hint_images ext screenshot_base64 template_images
          scale_factor threshold_opt)[i]? = some r ∧
        r.index = i ∧ r.file_name = t.file_name ∧
        (match_templates_batch ext screenshot_base64
            [(t.image_data, t.file_name)] scale_factor
            (threshold_opt.getD (7 / 10)))[0]? =
          some (t.file_name, r.match_result)) := by
  refine ⟨?_, ?_, ?_, ?_⟩
  · rw [match_templates_batch_eq_map]
    exact List.length_map ..
  · intro i t h
    rw [match_templates_batch_eq_map, match_templates_batch_eq_map]
    simp [List.getElem?_map, h]
  · simp [match_hint_images, match_templates_batch_eq_map]
  · intro i t h
    have hfst := batch_slot_fst ext screenshot_base64 scale_factor
      (threshold_opt.getD (7 / 10)) (t.image_data, t.file_name)
    refine ⟨{ index := i
              file_name := t.file_name
              match_result := (batch_slot ext screenshot_base64 scale_factor
                (threshold_opt.getD (7 / 10)) (t.image_data, t.file_name)).2 },
            ?_, rfl, rfl, ?_⟩
    · simp [match_hint_images, match_templates_batch_eq_map,
        List.getElem?_map, List.getElem?_enum, h, hfst]
    · rw [match_templates_batch_eq_map]
      simp [Prod.ext_iff, hfst]

/-- Witness for C1 at a concrete two-template batch, index 1. -/
theorem c1_batch_preserves_length_and_order_witness :
    (match_templates_batch extB64Fail ("s") [("t", "n"), ("u", "m")] 1
        (1 / 2)).length = [("t", "n"), ("u", "m")].length ∧
    (match_templates_batch extB64Fail ("s") [("t", "n"), ("u", "m")] 1
        (1 / 2))[1]? =
      (match_templates_batch extB64Fail ("s") [("u", "m")] 1 (1 / 2))[0]? ∧
    (match_hint_images extB64Fail ("s") [{ image_data := "t", file_name := "n" }]
        1 none).length = 1 :=
  have h := c1_batch_preserves_length_and_order extB64Fail ("s")
    [("t", "n"), ("u", "m")] [{ image_data := "t", file_name := "n" }] 1
    (1 / 2) none
  ⟨h.1, h.2.1 1 ("u", "m") (by rfl), h.2.2.1⟩

/-- C4: for a decoded template of original dimensions (w, h) with w, h ≥ 1
and a scale factor 0 < s ≤ 1, the post-scale width is max(1, round(w*s))
and the post-scale height is max(1, round(h*s)); when s = 1 the template is
used unchanged (no resize, never an upscale). -/
theorem c4_scale_alignment (ext : Externals) (timg : RgbaImage) (s : ℚ)
    (hw : 1 ≤ timg.width) (hh : 1 ≤ timg.height)
    (hw32 : timg.width ≤ 2 ^ 32 - 1) (hh32 : timg.height ≤ 2 ^ 32 - 1)
    (hs0 : 0 < s) (hs1 : s ≤ 1) :
    (scale_template ext timg s).width =
      max 1 (roundAway ((timg.width : ℚ) * s)).toNat ∧
    (scale_template ext timg s).height =
      max 1 (roundAway ((timg.height : ℚ) * s)).toNat ∧
    (s = 1 → scale_template ext timg s = timg) := by
  have hdim : ∀ n : ℕ, 1 ≤ n → n ≤ 2 ^ 32 - 1 →
      max (satU32 (roundAway ((n : ℚ) * s))) 1 =
        max 1 (roundAway ((n : ℚ) * s)).toNat := by
    intro n h1 h32
    have hq0 : (0 : ℚ) ≤ (n : ℚ) * s := by positivity
    have hn1 : (1 : ℚ) ≤ (n : ℚ) := by exact_mod_cast h1
    have hqn : (n : ℚ) * s ≤ (n : ℚ) := by nlinarith
    have h0 : 0 ≤ roundAway ((n : ℚ) * s) := roundAway_nonneg _ hq0
    have hle : roundAway ((n : ℚ) * s) ≤ (n : ℤ) := roundAway_le_nat _ n hq0 hqn
    have h32i : (n : ℤ) ≤ 2 ^ 32 - 1 := by omega
    rw [satU32_of_bounds _ h0 (le_trans hle h32i), Nat.max_comm]
  rcases lt_or_eq_of_le hs1 with hlt | heq
  · have hsc : scale_template ext timg s =
        { width := max (satU32 (roundAway ((timg.width : ℚ) * s))) 1
          height := max (satU32 (roundAway ((timg.height : ℚ) * s))) 1
          pix := ext.resample timg
            (max (satU32 (roundAway ((timg.width : ℚ) * s))) 1)
            (max (satU32 (roundAway ((timg.height : ℚ) * s))) 1) } := by
      unfold scale_template
      rw [if_pos hlt]
    rw [hsc]
    exact ⟨hdim timg.width hw hw32, hdim timg.height hh hh32, by
      intro h1
      exact absurd h1 (ne_of_lt hlt)⟩
  · subst heq
    have hsc : scale_template ext timg 1 = timg := by
      unfold scale_template
      rw [if_neg (lt_irrefl 1)]
    rw [hsc]
    refine ⟨?_, ?_, fun _ => rfl⟩
    · rw [mul_one, roundAway_natCast, Int.toNat_natCast,
        Nat.max_eq_right hw]
    · rw [mul_one, roundAway_natCast, Int.toNat_natCast,
        Nat.max_eq_right hh]

/-- Witness for C4: a 3 by 2 template at scale 1/2 comes out 2 by 1. -/
theorem c4_scale_alignment_witness :
    (scale_template extB64Fail (constImage 3 2 { r := 0, g := 0, b := 0, a := 255 })
        (1 / 2)).width =
      max 1 (roundAway (((constImage 3 2 { r := 0, g := 0, b := 0, a := 255 }).width : ℚ)
        * (1 / 2))).toNat ∧
    (scale_template extB64Fail (constImage 3 2 { r := 0, g := 0, b := 0, a := 255 })
        (1 / 2)).height =
      max 1 (roundAway (((constImage 3 2 { r := 0, g := 0, b := 0, a := 255 }).height : ℚ)
        * (1 / 2))).toNat ∧
    ((1 : ℚ) / 2 = 1 →
      scale_template extB64Fail (constImage 3 2 { r := 0, g := 0, b := 0, a := 255 })
        (1 / 2) = constImage 3 2 { r := 0, g := 0, b := 0, a := 255 }) :=
  c4_scale_alignment extB64Fail (constImage 3 2 { r := 0, g := 0, b := 0, a := 255 })
    (1 / 2) (by decide) (by decide) (by decide) (by decide)
    (by norm_num) (by norm_num)

/-- C5: when the pipeline passes decoding and the opacity gate but the
post-scale template exceeds the screenshot in width or height, the result
is found = false with error_code = TemplateTooLarge, reporting the
post-scale dimensions; and the result is the same for every correlation
oracle, so no correlation is performed. -/
theorem c5_template_too_large (ext : Externals) (shot : GrayImage)
    (tb : String) (s th : ℚ) (timg : RgbaImage)
    (hdec : decode_template_image ext tb = .ok timg)
    (hop : ¬ calculate_opacity_ratio (scale_template ext timg s) <
      minOpacityRatio)
    (hsize : (scale_template ext timg s).width > shot.width ∨
      (scale_template ext timg s).height > shot.height) :
    find_template_internal ext shot tb s th =
      { found := false
        center_x := none
        center_y := none
        confidence := some (FVal.finite 0)
        template_width := (scale_template ext timg s).width
        template_height := (scale_template ext timg s).height
        error := some tooLargeMessage
        error_code := some MatchErrorCode.TemplateTooLarge } ∧
    (∀ me : GrayImage → GrayImage → Extremes,
      find_template_internal { ext with match_extremes := me } shot tb s th =
        { found := false
          center_x := none
          center_y := none
          confidence := some (FVal.finite 0)
          template_width := (scale_template ext timg s).width
          template_height := (scale_template ext timg s).height
          error := some tooLargeMessage
          error_code := some MatchErrorCode.TemplateTooLarge }) :=
  ⟨fti_too_large_branch ext shot tb s th timg hdec hop hsize,
   fun me => fti_too_large_branch { ext with match_extremes := me } shot tb s
     th timg hdec hop hsize⟩

/-- Witness for C5: a 2 by 2 template against a 1 by 1 screenshot. -/
theorem c5_template_too_large_witness :
    find_template_internal extBig (grayConst 1 1 128) ("t") 1 (7 / 10) =
      { found := false
        center_x := none
        center_y := none
        confidence := some (FVal.finite 0)
        template_width := (scale_template extBig (constImage 2 2 whitePix) 1).width
        template_height := (scale_template extBig (constImage 2 2 whitePix) 1).height
        error := some tooLargeMessage
        error_code := some MatchErrorCode.TemplateTooLarge } :=
  (c5_template_too_large extBig (grayConst 1 1 128) ("t") 1 (7 / 10)
    (constImage 2 2 whitePix) (by rfl)
    (by rw [scale_template_one,
          opacity_ratio_const_opaque 2 2 whitePix (by decide) (by decide) (by decide)]
        norm_num [minOpacityRatio])
    (by rw [scale_template_one]
        decide)).1

/-- C6: a decoded and scaled template whose opacity ratio (pixels with
alpha strictly above 0 over total pixels) is below 0.10 yields
found = false with error_code = InsufficientOpacity, the post-scale
dimensions and no confidence; and the result is the same for every
correlation oracle, so the rejection happens before compositing or
correlation regardless of pixel content. -/
theorem c6_insufficient_opacity (ext : Externals) (shot : GrayImage)
    (tb : String) (s th : ℚ) (timg : RgbaImage)
    (hdec : decode_template_image ext tb = .ok timg)
    (hop : calculate_opacity_ratio (scale_template ext timg s) <
      minOpacityRatio) :
    find_template_internal ext shot tb s th =
      { found := false
        center_x := none
        center_y := none
        confidence := none
        template_width := (scale_template ext timg s).width
        template_height := (scale_template ext timg s).height
        error := some (opacityErrorMessage
          (calculate_opacity_ratio (scale_template ext timg s)))
        error_code := some MatchErrorCode.InsufficientOpacity } ∧
    (∀ me : GrayImage → GrayImage → Extremes,
      find_template_internal { ext with match_extremes := me } shot tb s th =
        { found := false
          center_x := none
          center_y := none
          confidence := none
          template_width := (scale_template ext timg s).width
          template_height := (scale_template ext timg s).height
          error := some (opacityErrorMessage
            (calculate_opacity_ratio (scale_template ext timg s)))
          error_code := some MatchErrorCode.InsufficientOpacity }) :=
  ⟨fti_opacity_branch ext shot tb s th timg hdec hop,
   fun me => fti_opacity_branch { ext with match_extremes := me } shot tb s
     th timg hdec hop⟩

/-- Witness for C6: a fully transparent 2 by 2 template is rejected. -/
theorem c6_insufficient_opacity_witness :
    find_template_internal extClear (grayConst 5 5 128) ("t") 1 (7 / 10) =
      { found := false
        center_x := none
        center_y := none
        confidence := none
        template_width := (scale_template extClear (constImage 2 2 clearPix) 1).width
        template_height := (scale_template extClear (constImage 2 2 clearPix) 1).height
        error := some (opacityErrorMessage
          (calculate_opacity_ratio (scale_template extClear (constImage 2 2 clearPix) 1)))
        error_code := some MatchErrorCode.InsufficientOpacity } :=
  (c6_insufficient_opacity extClear (grayConst 5 5 128) ("t") 1 (7 / 10)
    (constImage 2 2 clearPix) (by rfl)
    (by rw [scale_template_one, opacity_ratio_const_clear 2 2 clearPix (by rfl)]
        norm_num [minOpacityRatio])).1

/-- C3: when the pipeline reaches the classifier with a finite maximum
correlation value c at top-left (x, y): if c is at least the threshold the
result is found = true with confidence c and center
(x + floor(w/2), y + floor(h/2)) in screenshot coordinates; if c is below
the threshold the result is found = false with no center, no error and no
error code, but still confidence c. -/
theorem c3_confidence_classifier (ext : Externals) (shot : GrayImage)
    (tb : String) (s th : ℚ) (timg : RgbaImage) (c : ℚ) (x y : ℕ)
    (hdec : decode_template_image ext tb = .ok timg)
    (hop : ¬ calculate_opacity_ratio (scale_template ext timg s) <
      minOpacityRatio)
    (hw : (scale_template ext timg s).width ≤ shot.width)
    (hh : (scale_template ext timg s).height ≤ shot.height)
    (hex : ext.match_extremes shot
        (convert_to_grayscale_with_alpha (scale_template ext timg s)) =
      { max_value := .finite c, max_value_location := (x, y) }) :
    (th ≤ c →
      find_template_internal ext shot tb s th =
        { found := true
          center_x := some ((x : ℤ) +
            (((scale_template ext timg s).width / 2 : ℕ) : ℤ))
          center_y := some ((y : ℤ) +
            (((scale_template ext timg s).height / 2 : ℕ) : ℤ))
          confidence := some (FVal.finite c)
          template_width := (scale_template ext timg s).width
          template_height := (scale_template ext timg s).height
          error := none
          error_code := none }) ∧
    (c < th →
      find_template_internal ext shot tb s th =
        { found := false
          center_x := none
          center_y := none
          confidence := some (FVal.finite c)
          template_width := (scale_template ext timg s).width
          template_height := (scale_template ext timg s).height
          error := none
          error_code := none }) := by
  have hsize : ¬ ((convert_to_grayscale_with_alpha
        (scale_template ext timg s)).width > shot.width ∨
      (convert_to_grayscale_with_alpha
        (scale_template ext timg s)).height > shot.height) := by
    intro hcon
    rcases hcon with hgt | hgt
    · exact absurd hgt (not_lt.mpr hw)
    · exact absurd hgt (not_lt.mpr hh)
  constructor
  · intro hge
    exact fti_found_branch ext shot tb s th timg c x y hdec hop hsize hex hge
  · intro hlt
    exact fti_notfound_branch ext shot tb s th timg c x y hdec hop hsize hex
      (not_le.mpr hlt)

/-- Witness for C3: a 1 by 1 opaque template on a 5 by 5 screenshot with
maximum 1/2 at (2, 3) and threshold 3/10 is found with center (2, 3). -/
theorem c3_confidence_classifier_witness :
    ((3 : ℚ) / 10 ≤ 1 / 2 →
      find_template_internal extHalf (grayConst 5 5 128) ("t") 1 (3 / 10) =
        { found := true
          center_x := some ((2 : ℤ) +
            (((scale_template extHalf (constImage 1 1 whitePix) 1).width / 2 : ℕ) : ℤ))
          center_y := some ((3 : ℤ) +
            (((scale_template extHalf (constImage 1 1 whitePix) 1).height / 2 : ℕ) : ℤ))
          confidence := some (FVal.finite (1 / 2))
          template_width := (scale_template extHalf (constImage 1 1 whitePix) 1).width
          template_height := (scale_template extHalf (constImage 1 1 whitePix) 1).height
          error := none
          error_code := none }) ∧
    ((1 : ℚ) / 2 < 3 / 10 →
      find_template_internal extHalf (grayConst 5 5 128) ("t") 1 (3 / 10) =
        { found := false
          center_x := none
          center_y := none
          confidence := some (FVal.finite (1 / 2))
          template_width := (scale_template extHalf (constImage 1 1 whitePix) 1).width
          template_height := (scale_template extHalf (constImage 1 1 whitePix) 1).height
          error := none
          error_code := none }) :=
  c3_confidence_classifier extHalf (grayConst 5 5 128) ("t") 1 (3 / 10)
    (constImage 1 1 whitePix) (1 / 2) 2 3 (by rfl)
    (by rw [scale_template_one,
          opacity_ratio_const_opaque 1 1 whitePix (by decide) (by decide) (by decide)]
        norm_num [minOpacityRatio])
    (by rw [scale_template_one]
        decide)
    (by rw [scale_template_one]
        decide)
    (by rfl)

/-- C7: whenever a MatchResult of the engine carries a confidence value it
is finite, on the per-template pipeline, the single-image entry point and
every batch slot; and when the correlation maximum is non-finite the
pipeline returns found = false, error_code = NonFiniteConfidence and no
confidence. -/
theorem c7_confidence_always_finite (ext : Externals) (shot : GrayImage)
    (sb tb : String) (templates : List (String × String)) (s th : ℚ) :
    (∀ c : FVal, (find_template_internal ext shot tb s th).confidence =
      some c → c.isFinite = true) ∧
    (∀ c : FVal, (find_template_in_screenshot ext sb tb s th).confidence =
      some c → c.isFinite = true) ∧
    (∀ r ∈ match_templates_batch ext sb templates s th,
      ∀ c : FVal, r.2.confidence = some c → c.isFinite = true) ∧
    (∀ timg : RgbaImage, decode_template_image ext tb = .ok timg →
      ¬ calculate_opacity_ratio (scale_template ext timg s) <
        minOpacityRatio →
      (scale_template ext timg s).width ≤ shot.width →
      (scale_template ext timg s).height ≤ shot.height →
      (ext.match_extremes shot (convert_to_grayscale_with_alpha
        (scale_template ext timg s))).max_value.isFinite = false →
      find_template_internal ext shot tb s th =
        { found := false
          center_x := none
          center_y := none
          confidence := none
          template_width := (scale_template ext timg s).width
          template_height := (scale_template ext timg s).height
          error := some nonFiniteMessage
          error_code := some MatchErrorCode.NonFiniteConfidence }) := by
  refine ⟨fun c h => fti_confidence_finite ext shot tb s th c h, ?_, ?_, ?_⟩
  · intro c h
    unfold find_template_in_screenshot at h
    rcases hdec : decode_base64_image ext sb with e | img
    · rw [hdec] at h
      simp at h
    · rw [hdec] at h
      exact fti_confidence_finite ext (ext.to_luma8 img) tb s th c h
  · intro r hr c h
    rw [match_templates_batch_eq_map] at hr
    obtain ⟨t, _, rfl⟩ := List.mem_map.mp hr
    unfold batch_slot at h
    rcases hdec : decode_base64_image ext sb with e | img
    · rw [hdec] at h
      simp at h
    · rw [hdec] at h
      exact fti_confidence_finite ext (ext.to_luma8 img) t.1 s th c h
  · intro timg hdec hop hw hh hfin
    refine fti_nonfinite_branch ext shot tb s th timg hdec hop ?_ hfin
    intro hcon
    rcases hcon with hgt | hgt
    · exact absurd hgt (not_lt.mpr hw)
    · exact absurd hgt (not_lt.mpr hh)

/-- Witness for C7: the NaN oracle on a decodable 1 by 1 template produces
the NonFiniteConfidence result with no confidence. -/
theorem c7_confidence_always_finite_witness :
    find_template_internal extNan (grayConst 5 5 128) ("t") 1 (7 / 10) =
      { found := false
        center_x := none
        center_y := none
        confidence := none
        template_width := (scale_template extNan (constImage 1 1 whitePix) 1).width
        template_height := (scale_template extNan (constImage 1 1 whitePix) 1).height
        error := some nonFiniteMessage
        error_code := some MatchErrorCode.NonFiniteConfidence } :=
  (c7_confidence_always_finite extNan (grayConst 5 5 128) ("s") ("t") []
    1 (7 / 10)).2.2.2 (constImage 1 1 whitePix) (by rfl)
    (by rw [scale_template_one,
          opacity_ratio_const_opaque 1 1 whitePix (by decide) (by decide) (by decide)]
        norm_num [minOpacityRatio])
    (by rw [scale_template_one]
        decide)
    (by rw [scale_template_one]
        decide)
    (by rfl)

/-- C8: the grayscale compositor maps each RGBA pixel (R, G, B, A) with
byte channels to the luminance byte
round(0.299 R' + 0.587 G' + 0.114 B') where C' = C * a + 255 * (1 - a) and
a = A / 255; a fully transparent pixel becomes 255 and a fully opaque
pixel keeps its own luminance. -/
theorem c8_grayscale_compositor (img : RgbaImage) (x y : ℕ)
    (hr : (img.pix x y).r ≤ 255) (hg : (img.pix x y).g ≤ 255)
    (hb : (img.pix x y).b ≤ 255) (ha : (img.pix x y).a ≤ 255) :
    (((convert_to_grayscale_with_alpha img).pix x y : ℕ) : ℤ) =
      roundAway (299 / 1000 *
          (((img.pix x y).r : ℚ) * (((img.pix x y).a : ℚ) / 255) +
            255 * (1 - ((img.pix x y).a : ℚ) / 255)) +
        587 / 1000 *
          (((img.pix x y).g : ℚ) * (((img.pix x y).a : ℚ) / 255) +
            255 * (1 - ((img.pix x y).a : ℚ) / 255)) +
        114 / 1000 *
          (((img.pix x y).b : ℚ) * (((img.pix x y).a : ℚ) / 255) +
            255 * (1 - ((img.pix x y).a : ℚ) / 255))) ∧
    ((img.pix x y).a = 0 → (convert_to_grayscale_with_alpha img).pix x y = 255) ∧
    ((img.pix x y).a = 255 →
      (((convert_to_grayscale_with_alpha img).pix x y : ℕ) : ℤ) =
        roundAway (299 / 1000 * ((img.pix x y).r : ℚ) +
          587 / 1000 * ((img.pix x y).g : ℚ) +
          114 / 1000 * ((img.pix x y).b : ℚ))) := by
  have hpix : (convert_to_grayscale_with_alpha img).pix x y =
      compositePixel (img.pix x y) := rfl
  have hmain := compositePixel_spec (img.pix x y) hr hg hb ha
  refine ⟨by rw [hpix]; exact hmain, ?_, ?_⟩
  · intro h0
    have hm := hmain
    rw [h0] at hm
    norm_num at hm
    have hra : roundAway (255 : ℚ) = 255 := by
      have := roundAway_natCast 255
      push_cast at this
      exact this
    rw [hra] at hm
    rw [hpix]
    exact_mod_cast hm
  · intro h255
    have hm := hmain
    rw [h255] at hm
    rw [hpix, hm]
    congr 1
    push_cast
    ring

/-- Witness for C8 at the pixel (10, 20, 30, 128) of a concrete image. -/
theorem c8_grayscale_compositor_witness :
    (((convert_to_grayscale_with_alpha
        (constImage 1 1 { r := 10, g := 20, b := 30, a := 128 })).pix 0 0 : ℕ) : ℤ) =
      roundAway (299 / 1000 *
          ((((constImage 1 1 { r := 10, g := 20, b := 30, a := 128 }).pix 0 0).r : ℚ) *
              ((((constImage 1 1 { r := 10, g := 20, b := 30, a := 128 }).pix 0 0).a : ℚ) / 255) +
            255 * (1 - (((constImage 1 1 { r := 10, g := 20, b := 30, a := 128 }).pix 0 0).a : ℚ) / 255)) +
        587 / 1000 *
          ((((constImage 1 1 { r := 10, g := 20, b := 30, a := 128 }).pix 0 0).g : ℚ) *
              ((((constImage 1 1 { r := 10, g := 20, b := 30, a := 128 }).pix 0 0).a : ℚ) / 255) +
            255 * (1 - (((constImage 1 1 { r := 10, g := 20, b := 30, a := 128 }).pix 0 0).a : ℚ) / 255)) +
        114 / 1000 *
          ((((constImage 1 1 { r := 10, g := 20, b := 30, a := 128 }).pix 0 0).b : ℚ) *
              ((((constImage 1 1 { r := 10, g := 20, b := 30, a := 128 }).pix 0 0).a : ℚ) / 255) +
            255 * (1 - (((constImage 1 1 { r := 10, g := 20, b := 30, a := 128 }).pix 0 0).a : ℚ) / 255))) :=
  (c8_grayscale_compositor (constImage 1 1 { r := 10, g := 20, b := 30, a := 128 })
    0 0 (by decide) (by decide) (by decide) (by decide)).1

end TemplateMatcher
